import Mathlib

/-!
Verification of the GearGuard permission core.

This file shallowly embeds the authorization logic of the GearGuard
maintenance-management application: the role-permission matrix shared by
the backend (src/backend/server.js) and the frontend
(src/frontend/src/permissions.js), the two Express middleware guards
(requirePermission, requireRequestAccess), and the route handlers whose
behaviour the specification describes (request listing, stage change,
note addition, equipment listing and creation, signup role resolution).

Actors carry a nullable role string, mirroring the JavaScript profile
object: a missing profile is None, a profile whose role field is null or
undefined is role := none, and the empty string is kept distinct because
JavaScript treats it as falsy in the userProfile.role check.
-/

/-- Outcome of an authorization failure: HTTP 401 (no resolvable actor)
or HTTP 403 (actor resolved but denied). -/
inductive AuthError
  | unauthenticated
  | forbidden
deriving DecidableEq

/-- A user profile as produced by getUserProfile in server.js: the id of
the authenticated user joined with the role column of the profiles row.
The role is an arbitrary string (the database does not constrain it for
the purposes of the permission check) and may be absent. -/
structure Profile where
  id : String
  role : Option String
deriving DecidableEq

/-- The backend permission matrix of server.js (lines 83-96): an
association list from action name to the list of authorized roles. -/
def permissions : List (String × List String) :=
  [ ("view_all_requests", ["ADMIN", "MANAGER"]),
    ("view_own_requests", ["ADMIN", "MANAGER", "TECHNICIAN", "EMPLOYEE"]),
    ("create_request", ["ADMIN", "MANAGER", "EMPLOYEE"]),
    ("update_request_stage", ["ADMIN", "MANAGER", "TECHNICIAN"]),
    ("delete_request", ["ADMIN", "MANAGER"]),
    ("add_notes", ["ADMIN", "MANAGER", "EMPLOYEE"]),
    ("add_instructions", ["ADMIN", "MANAGER"]),
    ("add_worksheet", ["ADMIN"]),
    ("manage_equipment", ["ADMIN", "MANAGER"]),
    ("manage_workcenters", ["ADMIN", "MANAGER"]),
    ("manage_teams", ["ADMIN", "MANAGER"]),
    ("change_user_roles", ["ADMIN"]) ]

/-- The JavaScript object access permissions[action]: first matching key,
none when the key is absent. -/
def lookupRoles (action : String) : Option (List String) :=
  (permissions.find? (fun p => p.1 == action)).map (fun p => p.2)

/-- Backend hasPermission (server.js lines 74-100). A missing profile or
a falsy role (null, undefined, empty string) yields false; the role
ADMIN yields true before the table is consulted; otherwise the table is
consulted and an absent action yields false. -/
def hasPermission (userProfile : Option Profile) (action : String) : Bool :=
  match userProfile with
  | none => false
  | some u =>
    match u.role with
    | none => false
    | some role =>
      if role == "" then false
      else if role == "ADMIN" then true
      else
        match lookupRoles action with
        | some allowedRoles => allowedRoles.contains role
        | none => false

/-- The frontend permission matrix of permissions.js (lines 12-25),
transcribed independently of the backend table. -/
def frontendPermissions : List (String × List String) :=
  [ ("view_all_requests", ["ADMIN", "MANAGER"]),
    ("view_own_requests", ["ADMIN", "MANAGER", "TECHNICIAN", "EMPLOYEE"]),
    ("create_request", ["ADMIN", "MANAGER", "EMPLOYEE"]),
    ("update_request_stage", ["ADMIN", "MANAGER", "TECHNICIAN"]),
    ("delete_request", ["ADMIN", "MANAGER"]),
    ("add_notes", ["ADMIN", "MANAGER", "EMPLOYEE"]),
    ("add_instructions", ["ADMIN", "MANAGER"]),
    ("add_worksheet", ["ADMIN"]),
    ("manage_equipment", ["ADMIN", "MANAGER"]),
    ("manage_workcenters", ["ADMIN", "MANAGER"]),
    ("manage_teams", ["ADMIN", "MANAGER"]),
    ("change_user_roles", ["ADMIN"]) ]

/-- Frontend table lookup, mirroring frontendPermissions[action]. -/
def frontendLookupRoles (action : String) : Option (List String) :=
  (frontendPermissions.find? (fun p => p.1 == action)).map (fun p => p.2)

/-- Frontend hasPermission (permissions.js lines 3-29): same shape as
the backend function, over the frontend copy of the table. -/
def frontendHasPermission (user : Option Profile) (action : String) : Bool :=
  match user with
  | none => false
  | some u =>
    match u.role with
    | none => false
    | some role =>
      if role == "" then false
      else if role == "ADMIN" then true
      else
        match frontendLookupRoles action with
        | some allowedRoles => allowedRoles.contains role
        | none => false

/-- The requirePermission middleware (server.js lines 103-118): 401 when
no profile resolves, 403 when the permission check fails, otherwise the
profile is attached to the request and the handler runs. -/
def requirePermission (action : String) (user : Option Profile) :
    Except AuthError Profile :=
  match user with
  | none => Except.error AuthError.unauthenticated
  | some u =>
    if hasPermission (some u) action then Except.ok u
    else Except.error AuthError.forbidden

/-- The state requireRequestAccess attaches to a passing request: the
profile and the canViewAll flag. -/
structure AccessGrant where
  profile : Profile
  canViewAll : Bool
deriving DecidableEq

/-- The requireRequestAccess middleware (server.js lines 121-145): 401
without a profile; canViewAll when view_all_requests is granted; the own
scope when only view_own_requests is granted; otherwise 403. -/
def requireRequestAccess (user : Option Profile) :
    Except AuthError AccessGrant :=
  match user with
  | none => Except.error AuthError.unauthenticated
  | some u =>
    if hasPermission (some u) "view_all_requests" then
      Except.ok { profile := u, canViewAll := true }
    else if hasPermission (some u) "view_own_requests" then
      Except.ok { profile := u, canViewAll := false }
    else Except.error AuthError.forbidden

/-- A maintenance_requests row, restricted to the columns the policy
core reads: the primary key, the two nullable ownership columns, and the
stage. -/
structure RequestRec where
  id : Nat
  technician_id : Option String
  created_by_user_id : Option String
  stage : String
deriving DecidableEq

/-- GET /api/requests (server.js lines 741-788): after
requireRequestAccess, the full table is returned when canViewAll holds;
otherwise an equality filter on technician_id (TECHNICIAN) or
created_by_user_id (EMPLOYEE) is added to the query; any other role in
the own-scope branch adds no filter, so the query returns every row. -/
def listRequests (user : Option Profile) (db : List RequestRec) :
    Except AuthError (List RequestRec) :=
  match requireRequestAccess user with
  | Except.error e => Except.error e
  | Except.ok g =>
    if g.canViewAll then Except.ok db
    else if g.profile.role == some "TECHNICIAN" then
      Except.ok (db.filter (fun r => r.technician_id == some g.profile.id))
    else if g.profile.role == some "EMPLOYEE" then
      Except.ok (db.filter (fun r => r.created_by_user_id == some g.profile.id))
    else Except.ok db

/-- The single-row lookup .eq(id).single() used by the request routes:
first row whose primary key matches. -/
def findRequest (db : List RequestRec) (id : Nat) : Option RequestRec :=
  db.find? (fun r => r.id == id)

/-- A request_stage_history row as inserted by the stage route:
request_id, from_stage (null when the prior row was missing or its stage
was falsy, via the expression current?.stage or null), to_stage, and the
acting user's id. -/
structure HistoryRec where
  request_id : Nat
  from_stage : Option String
  to_stage : String
  changed_by_user_id : String
deriving DecidableEq

/-- Result of PUT /api/requests/:id/stage: 200 with the updated requests
table and the history log, 401/403 from the guards, or 400 when the
update matched no row. -/
inductive StageResult
  | ok (requests : List RequestRec) (history : List HistoryRec)
  | authErr (e : AuthError)
  | dbErr
deriving DecidableEq

/-- Body of the stage route after the guards (server.js lines 958-989):
read the current stage, update the row, then insert the history record.
The insert's error object is discarded by the source, so the route
answers 200 whether or not the history write succeeded; the parameter
auditWriteOk models whether that insert succeeds. -/
def updateStageCore (u : Profile) (id : Nat) (newStage : String)
    (requests : List RequestRec) (history : List HistoryRec)
    (auditWriteOk : Bool) : StageResult :=
  let current := findRequest requests id
  match findRequest requests id with
  | none => StageResult.dbErr
  | some _ =>
    let updated := requests.map
      (fun r => if r.id == id then { r with stage := newStage } else r)
    let entry : HistoryRec :=
      { request_id := id,
        from_stage :=
          match current with
          | some c => if c.stage == "" then none else some c.stage
          | none => none,
        to_stage := newStage,
        changed_by_user_id := u.id }
    if auditWriteOk then StageResult.ok updated (history ++ [entry])
    else StageResult.ok updated history

/-- PUT /api/requests/:id/stage (server.js lines 940-990): the
requirePermission guard for update_request_stage, then for a TECHNICIAN
a per-record ownership check (403 when the row is missing or assigned to
someone else), then the update and history insert. -/
def updateStage (user : Option Profile) (id : Nat) (newStage : String)
    (requests : List RequestRec) (history : List HistoryRec)
    (auditWriteOk : Bool) : StageResult :=
  match requirePermission "update_request_stage" user with
  | Except.error e => StageResult.authErr e
  | Except.ok u =>
    if u.role == some "TECHNICIAN" then
      match findRequest requests id with
      | none => StageResult.authErr AuthError.forbidden
      | some r =>
        if r.technician_id == some u.id then
          updateStageCore u id newStage requests history auditWriteOk
        else StageResult.authErr AuthError.forbidden
    else updateStageCore u id newStage requests history auditWriteOk

/-- A request_notes row as inserted by the notes route. -/
structure NoteRec where
  request_id : Nat
  note : String
  created_by_user_id : String
deriving DecidableEq

/-- Result of POST /api/requests/:id/notes: 200 with the new notes
table, or 401/403 from the guards. -/
inductive NoteResult
  | ok (notes : List NoteRec)
  | authErr (e : AuthError)
deriving DecidableEq

/-- POST /api/requests/:id/notes (server.js lines 992-1028): the
requirePermission guard for add_notes, then for an EMPLOYEE a per-record
ownership check (403 when the row is missing or created by someone
else), then the insert. -/
def addNote (user : Option Profile) (id : Nat) (noteText : String)
    (requests : List RequestRec) (notes : List NoteRec) : NoteResult :=
  match requirePermission "add_notes" user with
  | Except.error e => NoteResult.authErr e
  | Except.ok u =>
    if u.role == some "EMPLOYEE" then
      match findRequest requests id with
      | none => NoteResult.authErr AuthError.forbidden
      | some r =>
        if r.created_by_user_id == some u.id then
          NoteResult.ok (notes ++
            [{ request_id := id, note := noteText, created_by_user_id := u.id }])
        else NoteResult.authErr AuthError.forbidden
    else NoteResult.ok (notes ++
      [{ request_id := id, note := noteText, created_by_user_id := u.id }])

/-- An equipment row, restricted to the fields the modelled routes
touch. -/
structure EquipmentRec where
  name : String
  used_by_type : String
deriving DecidableEq

/-- GET /api/equipment (server.js lines 535-569). The route declares no
requirePermission middleware and never resolves an actor: the handler
selects every equipment row and returns it, so the user argument is
unused, mirroring the source. -/
def listEquipment (_user : Option Profile) (db : List EquipmentRec) :
    Except AuthError (List EquipmentRec) :=
  Except.ok db

/-- Request body of POST /api/equipment, restricted to the fields the
handler validates; absent-or-falsy body fields are modelled as none. -/
structure EquipmentInput where
  name : String
  used_by_type : Option String
  used_by_user_id : Option String
  used_by_department_id : Option String
deriving DecidableEq

/-- Result of POST /api/equipment: 200 with the new table, 400 from the
used_by validation, or 401/403 from the guard. -/
inductive EqResult
  | ok (db : List EquipmentRec)
  | badRequest
  | authErr (e : AuthError)
deriving DecidableEq

/-- POST /api/equipment (server.js lines 627-680): the requirePermission
guard for manage_equipment, then the used_by validation (the type
defaults to EMPLOYEE when absent), then the insert. -/
def createEquipment (user : Option Profile) (input : EquipmentInput)
    (db : List EquipmentRec) : EqResult :=
  match requirePermission "manage_equipment" user with
  | Except.error e => EqResult.authErr e
  | Except.ok _ =>
    let usedByType :=
      match input.used_by_type with
      | some t => if t == "" then "EMPLOYEE" else t
      | none => "EMPLOYEE"
    if usedByType == "EMPLOYEE" && input.used_by_user_id.isNone then
      EqResult.badRequest
    else if usedByType == "DEPARTMENT" && input.used_by_department_id.isNone then
      EqResult.badRequest
    else EqResult.ok (db ++ [{ name := input.name, used_by_type := usedByType }])

/-- The closed set of provisioning roles accepted by POST
/api/auth/signup (server.js line 277). -/
def validRoles : List String := ["ADMIN", "MANAGER", "TECHNICIAN", "EMPLOYEE"]

/-- Role resolution of POST /api/auth/signup (server.js line 278): the
requested role is used verbatim when it is one of the four valid roles,
and silently replaced by EMPLOYEE otherwise, including when the body
carries no role. The route declares no authentication middleware, so the
requested role is entirely caller-controlled. -/
def signupRole (requested : Option String) : String :=
  match requested with
  | some r => if validRoles.contains r then r else "EMPLOYEE"
  | none => "EMPLOYEE"

/-- Sample ADMIN profile used by concrete witnesses. -/
def adminP : Profile := { id := "a1", role := some "ADMIN" }

/-- Sample MANAGER profile used by concrete witnesses. -/
def mgrP : Profile := { id := "m1", role := some "MANAGER" }

/-- Sample TECHNICIAN profile used by concrete witnesses. -/
def techP : Profile := { id := "t1", role := some "TECHNICIAN" }

/-- Sample EMPLOYEE profile used by concrete witnesses. -/
def empP : Profile := { id := "e1", role := some "EMPLOYEE" }

/-- Sample request assigned to technician t1, created by employee e1. -/
def reqA : RequestRec :=
  { id := 1, technician_id := some "t1",
    created_by_user_id := some "e1", stage := "NEW_REQUEST" }

/-- Sample request assigned to technician t2, created by employee e2. -/
def reqB : RequestRec :=
  { id := 2, technician_id := some "t2",
    created_by_user_id := some "e2", stage := "NEW_REQUEST" }

/-- Sample equipment row used by concrete witnesses. -/
def eqDrill : EquipmentRec := { name := "Drill", used_by_type := "EMPLOYEE" }

/-- C1: for every action, including actions with no entry in the rule
table, hasPermission answers true whenever the actor's role is ADMIN;
the result never depends on the table lookup. -/
theorem admin_allowed_every_action (p : Profile) (action : String)
    (h : p.role = some "ADMIN") : hasPermission (some p) action = true := by
  simp [hasPermission, h]

/-- Witness for C1 at a concrete ADMIN profile and an action that has no
entry in the rule table. -/
theorem admin_allowed_every_action_witness :
    hasPermission (some adminP) "not_in_the_table" = true :=
  admin_allowed_every_action adminP "not_in_the_table" rfl

/-- C2: for every non-ADMIN (and non-empty) role and every action,
hasPermission is exactly membership in the authorized-role set of the
rule table, and false when the action has no entry. -/
theorem non_admin_matrix_membership (p : Profile) (r : String) (action : String)
    (hr : p.role = some r) (hA : r ≠ "ADMIN") (hE : r ≠ "") :
    hasPermission (some p) action =
      match lookupRoles action with
      | some allowedRoles => allowedRoles.contains r
      | none => false := by
  have h1 : (r == "") = false := by simp [hE]
  have h2 : (r == "ADMIN") = false := by simp [hA]
  simp [hasPermission, hr, h1, h2]

/-- Witness for C2: EMPLOYEE is denied add_worksheet (allowed set is
ADMIN only) and MANAGER is allowed delete_request. -/
theorem non_admin_matrix_membership_witness :
    hasPermission (some empP) "add_worksheet" = false ∧
    hasPermission (some mgrP) "delete_request" = true := by
  constructor
  · have h := non_admin_matrix_membership empP "EMPLOYEE" "add_worksheet"
      rfl (by decide) (by decide)
    exact h.trans rfl
  · have h := non_admin_matrix_membership mgrP "MANAGER" "delete_request"
      rfl (by decide) (by decide)
    exact h.trans rfl

/-- C9: the frontend and backend hasPermission functions agree on every
actor value (missing profile, missing role, unknown role included) and
every action name. -/
theorem frontend_backend_permission_agree (user : Option Profile)
    (action : String) :
    frontendHasPermission user action = hasPermission user action := by
  cases user with
  | none => rfl
  | some u =>
    obtain ⟨uid, urole⟩ := u
    cases urole <;> rfl

/-- C10: signup provisions exactly the requested role when it is one of
the four valid roles, so an unauthenticated caller can request ADMIN and
receive it, and silently defaults to EMPLOYEE for any other or missing
requested role. -/
theorem signup_role_provisioning (requested : Option String) :
    (∀ r, requested = some r → validRoles.contains r = true →
      signupRole requested = r)
    ∧ signupRole (some "ADMIN") = "ADMIN"
    ∧ (∀ r, requested = some r → validRoles.contains r = false →
      signupRole requested = "EMPLOYEE")
    ∧ signupRole none = "EMPLOYEE" := by
  refine ⟨?_, rfl, ?_, rfl⟩
  · intro r hr hmem
    subst hr
    have hm : r ∈ validRoles := by simpa using hmem
    simp [signupRole, hm]
  · intro r hr hmem
    subst hr
    have hm : r ∉ validRoles := by simpa using hmem
    simp [signupRole, hm]

/-- Witness for C10: requesting ADMIN yields an ADMIN account; an
unknown requested role silently yields EMPLOYEE. -/
theorem signup_role_provisioning_witness :
    signupRole (some "ADMIN") = "ADMIN" ∧
    signupRole (some "SUPERUSER") = "EMPLOYEE" :=
  ⟨(signup_role_provisioning (some "ADMIN")).1 "ADMIN" rfl (by decide),
   (signup_role_provisioning (some "SUPERUSER")).2.2.1 "SUPERUSER" rfl
     (by decide)⟩

/-- C3: reading the request collection returns every record to an actor
granted view_all_requests; with only view_own_requests a TECHNICIAN gets
exactly the records assigned to them and an EMPLOYEE exactly the records
they created; an actor granted neither is answered 403, not an empty
list. -/
theorem request_visibility (p : Profile) (db : List RequestRec) :
    (hasPermission (some p) "view_all_requests" = true →
      listRequests (some p) db = Except.ok db)
    ∧ (hasPermission (some p) "view_all_requests" = false →
       hasPermission (some p) "view_own_requests" = true →
       (p.role = some "TECHNICIAN" →
         listRequests (some p) db =
           Except.ok (db.filter (fun r => r.technician_id == some p.id)))
       ∧ (p.role = some "EMPLOYEE" →
         listRequests (some p) db =
           Except.ok (db.filter (fun r => r.created_by_user_id == some p.id))))
    ∧ (hasPermission (some p) "view_all_requests" = false →
       hasPermission (some p) "view_own_requests" = false →
       listRequests (some p) db = Except.error AuthError.forbidden) := by
  refine ⟨?_, ?_, ?_⟩
  · intro h1
    simp [listRequests, requireRequestAccess, h1]
  · intro h1 h2
    constructor
    · intro hrole
      simp [listRequests, requireRequestAccess, h1, h2, hrole]
    · intro hrole
      simp [listRequests, requireRequestAccess, h1, h2, hrole]
  · intro h1 h2
    simp [listRequests, requireRequestAccess, h1, h2]

/-- Witness for C3: a concrete TECHNICIAN with only view_own_requests
receives exactly the request assigned to them. -/
theorem request_visibility_witness :
    listRequests (some techP) [reqA, reqB] = Except.ok [reqA] := by
  have h := ((request_visibility techP [reqA, reqB]).2.1
    (by decide) (by decide)).1 rfl
  exact h.trans rfl

/-- C7: an actor who lacks view_all_requests and whose role is neither
TECHNICIAN nor EMPLOYEE is denied by the request listing with 403; in
particular no such actor ever receives the unfiltered record set through
the own-scope fall-through. -/
theorem own_branch_foreign_role_denied (p : Profile) (db : List RequestRec)
    (hAll : hasPermission (some p) "view_all_requests" = false)
    (hT : p.role ≠ some "TECHNICIAN") (hE : p.role ≠ some "EMPLOYEE") :
    listRequests (some p) db = Except.error AuthError.forbidden := by
  have hOwn : hasPermission (some p) "view_own_requests" = false := by
    cases hr : p.role with
    | none => simp [hasPermission, hr]
    | some r =>
      have hT' : r ≠ "TECHNICIAN" := fun h => hT (by rw [hr, h])
      have hE' : r ≠ "EMPLOYEE" := fun h => hE (by rw [hr, h])
      by_cases he : r = ""
      · simp [hasPermission, hr, he]
      · by_cases ha : r = "ADMIN"
        · have htrue : hasPermission (some p) "view_all_requests" = true := by
            simp [hasPermission, hr, ha]
          simp [htrue] at hAll
        · by_cases hm : r = "MANAGER"
          · have htrue : hasPermission (some p) "view_all_requests" = true := by
              subst hm
              simp [hasPermission, hr, lookupRoles, permissions, he, ha]
            simp [htrue] at hAll
          · simp [hasPermission, hr, lookupRoles, permissions,
              he, ha, hm, hT', hE']
  simp [listRequests, requireRequestAccess, hAll, hOwn]

/-- Witness for C7: a concrete actor with an unknown role receives 403
from the request listing, not the record set. -/
theorem own_branch_foreign_role_denied_witness :
    listRequests (some { id := "x1", role := some "INTERN" }) [reqA, reqB] =
      Except.error AuthError.forbidden :=
  own_branch_foreign_role_denied { id := "x1", role := some "INTERN" }
    [reqA, reqB] (by decide) (by decide) (by decide)

/-- C8: across both guards, a missing actor is answered 401 and a
resolved but denied actor 403; the two outcomes characterize disjoint
conditions and never coincide for the same evaluation. -/
theorem failure_kinds_distinct (action : String) (user : Option Profile) :
    (requirePermission action user = Except.error AuthError.unauthenticated ↔
      user = none)
    ∧ (requirePermission action user = Except.error AuthError.forbidden ↔
       ∃ u, user = some u ∧ hasPermission (some u) action = false)
    ∧ (requireRequestAccess user = Except.error AuthError.unauthenticated ↔
      user = none)
    ∧ (requireRequestAccess user = Except.error AuthError.forbidden ↔
       ∃ u, user = some u ∧ hasPermission (some u) "view_all_requests" = false
         ∧ hasPermission (some u) "view_own_requests" = false)
    ∧ ¬(requirePermission action user = Except.error AuthError.unauthenticated
        ∧ requirePermission action user = Except.error AuthError.forbidden) := by
  cases user with
  | none =>
    refine ⟨by simp [requirePermission], by simp [requirePermission],
      by simp [requireRequestAccess], by simp [requireRequestAccess],
      by simp [requirePermission]⟩
  | some u =>
    refine ⟨?_, ?_, ?_, ?_, ?_⟩
    · by_cases h : hasPermission (some u) action = true <;>
        simp [requirePermission, h]
    · by_cases h : hasPermission (some u) action = true <;>
        simp [requirePermission, h]
    · by_cases h1 : hasPermission (some u) "view_all_requests" = true <;>
        by_cases h2 : hasPermission (some u) "view_own_requests" = true <;>
          simp [requireRequestAccess, h1, h2]
    · by_cases h1 : hasPermission (some u) "view_all_requests" = true <;>
        by_cases h2 : hasPermission (some u) "view_own_requests" = true <;>
          simp [requireRequestAccess, h1, h2]
    · by_cases h : hasPermission (some u) action = true <;>
        simp [requirePermission, h]

/-- Witness for C8: a resolved EMPLOYEE denied manage_teams receives
403, while the same check with no actor receives 401. -/
theorem failure_kinds_distinct_witness :
    requirePermission "manage_teams" (some empP) =
      Except.error AuthError.forbidden ∧
    requirePermission "manage_teams" none =
      Except.error AuthError.unauthenticated := by
  constructor
  · exact ((failure_kinds_distinct "manage_teams" (some empP)).2.1).mpr
      ⟨empP, rfl, by decide⟩
  · exact ((failure_kinds_distinct "manage_teams" none).1).mpr rfl

/-- C4: per-record writes layer the ownership check on top of the
action-level check. A TECHNICIAN holds update_request_stage, yet a stage
change on a record assigned to a different user is denied 403, and on
their own record it proceeds to the write; an EMPLOYEE holds add_notes,
yet adding a note to a record created by someone else is denied 403, and
on their own record the note is inserted. -/
theorem per_record_write_ownership (p : Profile) (id : Nat)
    (newStage noteText : String) (requests : List RequestRec)
    (history : List HistoryRec) (notes : List NoteRec) (r : RequestRec)
    (hfind : findRequest requests id = some r) :
    (p.role = some "TECHNICIAN" →
      hasPermission (some p) "update_request_stage" = true
      ∧ (r.technician_id ≠ some p.id →
          updateStage (some p) id newStage requests history true =
            StageResult.authErr AuthError.forbidden)
      ∧ (r.technician_id = some p.id →
          updateStage (some p) id newStage requests history true =
            StageResult.ok
              (requests.map (fun x =>
                if x.id == id then { x with stage := newStage } else x))
              (history ++
                [{ request_id := id,
                   from_stage := if r.stage == "" then none else some r.stage,
                   to_stage := newStage,
                   changed_by_user_id := p.id }])))
    ∧ (p.role = some "EMPLOYEE" →
      hasPermission (some p) "add_notes" = true
      ∧ (r.created_by_user_id ≠ some p.id →
          addNote (some p) id noteText requests notes =
            NoteResult.authErr AuthError.forbidden)
      ∧ (r.created_by_user_id = some p.id →
          addNote (some p) id noteText requests notes =
            NoteResult.ok (notes ++
              [{ request_id := id, note := noteText,
                 created_by_user_id := p.id }]))) := by
  constructor
  · intro hrole
    have hperm : hasPermission (some p) "update_request_stage" = true := by
      simp [hasPermission, hrole, lookupRoles, permissions]
    refine ⟨hperm, ?_, ?_⟩
    · intro hne
      have hb : (r.technician_id == some p.id) = false := by simp [hne]
      simp [updateStage, requirePermission, hperm, hrole, hfind, hb]
    · intro heq
      simp [updateStage, updateStageCore, requirePermission, hperm, hrole,
        hfind, heq]
  · intro hrole
    have hperm : hasPermission (some p) "add_notes" = true := by
      simp [hasPermission, hrole, lookupRoles, permissions]
    refine ⟨hperm, ?_, ?_⟩
    · intro hne
      have hb : (r.created_by_user_id == some p.id) = false := by simp [hne]
      simp [addNote, requirePermission, hperm, hrole, hfind, hb]
    · intro heq
      simp [addNote, requirePermission, hperm, hrole, hfind, heq]

/-- Witness for C4: technician t1 passes the action-level check but is
denied on the request assigned to t2, and employee e1 is denied adding a
note to the request created by e2. -/
theorem per_record_write_ownership_witness :
    updateStage (some techP) 2 "IN_PROGRESS" [reqA, reqB] [] true =
      StageResult.authErr AuthError.forbidden ∧
    addNote (some empP) 2 "checked" [reqA, reqB] [] =
      NoteResult.authErr AuthError.forbidden := by
  constructor
  · exact ((per_record_write_ownership techP 2 "IN_PROGRESS" "checked"
      [reqA, reqB] [] [] reqB rfl).1 rfl).2.1 (by decide)
  · exact ((per_record_write_ownership empP 2 "IN_PROGRESS" "checked"
      [reqA, reqB] [] [] reqB rfl).2 rfl).2.1 (by decide)

/-- C5 is violated by the source: GET /api/equipment declares no
permission middleware, so the equipment list is returned to callers that
fail (or never undergo) the manage_equipment check, while POST
/api/equipment is gated as the claim states. This theorem evaluates the
code at the failing inputs: an unauthenticated caller and an EMPLOYEE,
both lacking manage_equipment, receive the full equipment list from the
listing route, while the creation route rejects them with 401 and 403
respectively. -/
theorem equipment_list_ungated :
    hasPermission none "manage_equipment" = false ∧
    listEquipment none [eqDrill] = Except.ok [eqDrill] ∧
    hasPermission (some empP) "manage_equipment" = false ∧
    listEquipment (some empP) [eqDrill] = Except.ok [eqDrill] ∧
    createEquipment none
      { name := "Saw", used_by_type := some "EMPLOYEE",
        used_by_user_id := some "e1", used_by_department_id := none } [] =
      EqResult.authErr AuthError.unauthenticated ∧
    createEquipment (some empP)
      { name := "Saw", used_by_type := some "EMPLOYEE",
        used_by_user_id := some "e1", used_by_department_id := none } [] =
      EqResult.authErr AuthError.forbidden :=
  ⟨rfl, rfl, rfl, rfl, rfl, rfl⟩

/-- C6 counterexample: a stage change whose audit write fails still
answers 200 with the row updated, the history log unchanged, and no
error surfaced, so the operation succeeds although no audit record was
appended. -/
theorem stage_audit_failure_counterexample :
    updateStage (some adminP) 1 "IN_PROGRESS" [reqA] [] false =
      StageResult.ok
        [{ id := 1, technician_id := some "t1",
           created_by_user_id := some "e1", stage := "IN_PROGRESS" }] [] := rfl

/-- C6 amended: when the guards pass and the target row exists, a stage
change either fails the technician ownership check, or it succeeds and,
with the audit write succeeding, appends exactly one history record
capturing the prior stage, the new stage, and the acting user's id;
with the audit write failing, the same operation still reports success
on the same updated rows with the history log unchanged, the failure
being silently dropped. -/
theorem stage_audit_append (user : Option Profile) (id : Nat)
    (newStage : String) (requests : List RequestRec)
    (history : List HistoryRec) (u : Profile) (r : RequestRec)
    (hperm : requirePermission "update_request_stage" user = Except.ok u)
    (hfind : findRequest requests id = some r) :
    updateStage user id newStage requests history true =
      StageResult.authErr AuthError.forbidden ∨
    (updateStage user id newStage requests history true =
      StageResult.ok
        (requests.map (fun x =>
          if x.id == id then { x with stage := newStage } else x))
        (history ++
          [{ request_id := id,
             from_stage := if r.stage == "" then none else some r.stage,
             to_stage := newStage,
             changed_by_user_id := u.id }]) ∧
     updateStage user id newStage requests history false =
      StageResult.ok
        (requests.map (fun x =>
          if x.id == id then { x with stage := newStage } else x))
        history) := by
  by_cases htech : u.role = some "TECHNICIAN"
  · by_cases hown : r.technician_id = some u.id
    · right
      refine ⟨?_, ?_⟩ <;>
        simp [updateStage, hperm, htech, hown, hfind, updateStageCore]
    · left
      have hb : (r.technician_id == some u.id) = false := by simp [hown]
      simp [updateStage, hperm, htech, hfind, hb]
  · right
    have hb : (u.role == some "TECHNICIAN") = false := by simp [htech]
    refine ⟨?_, ?_⟩ <;>
      simp [updateStage, hperm, hb, hfind, updateStageCore]

/-- Witness for C6 amended at a concrete MANAGER stage change from
NEW_REQUEST to IN_PROGRESS: the audit entry records the prior stage, the
new stage and the manager's id; the run whose audit write fails still
succeeds with an unchanged history log. -/
theorem stage_audit_append_witness :
    updateStage (some mgrP) 1 "IN_PROGRESS" [reqA] [] true =
      StageResult.ok
        [{ id := 1, technician_id := some "t1",
           created_by_user_id := some "e1", stage := "IN_PROGRESS" }]
        [{ request_id := 1, from_stage := some "NEW_REQUEST",
           to_stage := "IN_PROGRESS", changed_by_user_id := "m1" }] ∧
    updateStage (some mgrP) 1 "IN_PROGRESS" [reqA] [] false =
      StageResult.ok
        [{ id := 1, technician_id := some "t1",
           created_by_user_id := some "e1", stage := "IN_PROGRESS" }] [] := by
  have h := stage_audit_append (some mgrP) 1 "IN_PROGRESS" [reqA] [] mgrP
    reqA rfl rfl
  rcases h with h | h
  · exact absurd h (by decide)
  · exact ⟨h.1.trans (by rfl), h.2.trans (by rfl)⟩
